import Mathlib

/-!
A shallow embedding of the FileReadAI extraction core: the form store
(`src/stores/formStore.js`), the form-processing helpers
(`src/services/FormProcessingService.js`) and the provider router
(`src/services/AIProviderService.js`).

Conventions of the embedding:
* JavaScript `undefined`/missing object keys are modelled with `Option`.
* JavaScript truthiness of `x || d` is modelled explicitly: `""` and `0`
  are falsy, objects are truthy.
* All reads of `new Date().toISOString()` within one action are modelled
  by a single `now : String` parameter, and `Date.now()` by `nowMs : Nat`.
* The asynchronous provider call (rasterize a page, then call the active
  AI backend) is modelled by an oracle `Nat → Except String (Option RawData)`
  giving, per page number, either the thrown error message or the raw
  response object.
-/

namespace FileReadAI

/-- JS truthiness of an optional string: `undefined` and `""` are falsy. -/
def truthyStr : Option String → Bool
  | none => false
  | some s => s != ""

/-- JS `a || d` where `a` is an optional string and `d` a plain string. -/
def jsOrStr (a : Option String) (d : String) : String :=
  match a with
  | none => d
  | some s => if s = "" then d else s

/-- JS `a || d` where `a` is an optional number (0 is falsy). -/
def jsOrRat (a : Option ℚ) (d : ℚ) : ℚ :=
  match a with
  | none => d
  | some c => if c = 0 then d else c

/-- JS `a || d` where `a` is an optional natural number (0 is falsy). -/
def jsOrNat (a : Option Nat) (d : Nat) : Nat :=
  match a with
  | none => d
  | some n => if n = 0 then d else n

/-- JS `a || d` on a plain natural number (0 is falsy). -/
def jsOrNat0 (a d : Nat) : Nat :=
  if a = 0 then d else a

/-- JS `a || b` keeping both sides optional strings. -/
def orOptStr (a b : Option String) : Option String :=
  if truthyStr a then a else b

/-- Normalized bounding box as promised by the prompt contract. -/
structure BoundingBox where
  x : ℚ
  y : ℚ
  width : ℚ
  height : ℚ
  deriving Repr, DecidableEq

/-- One field of a raw provider response; every key may be missing. -/
structure RawField where
  label : Option String
  value : Option String
  type : Option String
  confidence : Option ℚ
  boundingBox : Option BoundingBox
  deriving Repr, DecidableEq

/-- Raw provider response object as consumed by `formatExtractedData`. -/
structure RawData where
  formTitle : Option String
  fields : Option (List RawField)
  summary : Option String
  deriving Repr, DecidableEq

/-- A formatted field. `page` is `none` until the extraction loop (or
`addField`) attaches a page number, mirroring the absent `page` key on the
objects produced by `formatExtractedData`. -/
structure Field where
  id : String
  label : String
  value : String
  type : String
  confidence : ℚ
  verified : Bool
  page : Option Nat
  boundingBox : Option BoundingBox
  deriving Repr, DecidableEq

/-- The `extractedData` object of the store: title, fields, timestamp. -/
structure ExtractedData where
  formTitle : Option String
  fields : List Field
  extractedAt : String
  deriving Repr, DecidableEq

/-- An uploaded file: name, MIME type, and size in bytes. -/
structure FileRec where
  name : String
  type : String
  size : Nat
  deriving Repr, DecidableEq

/-- One processing-history entry (lines 181-188 of the store). -/
structure HistoryEntry where
  id : Nat
  filename : String
  extractedAt : String
  fieldsCount : Nat
  formTitle : Option String
  provider : String
  deriving Repr, DecidableEq

/-- The Zustand store state (lines 22-34 of the store). -/
structure StoreState where
  currentForm : Option FileRec
  originalFile : Option FileRec
  extractedData : Option ExtractedData
  processing : Bool
  error : Option String
  history : List HistoryEntry
  imagePreview : Option String
  selectedProvider : String
  isPDF : Bool
  currentPage : Nat
  totalPages : Nat
  processingPage : Option Nat
  highlightedFieldId : Option String
  deriving Repr, DecidableEq

/-! FormProcessingService -/

/-- Result object of `FormProcessingService.validateImageFile`. -/
structure ValidationResult where
  valid : Bool
  error : Option String
  deriving Repr, DecidableEq

/-- Maximum accepted file size: `10 * 1024 * 1024` bytes. -/
def maxFileSize : Nat := 10 * 1024 * 1024

/-- The allow-list of accepted MIME types. -/
def allowedTypes : List String :=
  ["image/jpeg", "image/jpg", "image/png", "image/webp", "application/pdf"]

/-- FormProcessingService.validateImageFile (part_003 lines 58-81). -/
def validateImageFile : Option FileRec → ValidationResult
  | none => ⟨false, some "No file provided"⟩
  | some f =>
    if !(allowedTypes.contains f.type) then
      ⟨false, some "Invalid file type. Please upload JPG, PNG, WebP images or PDF files."⟩
    else if f.size > maxFileSize then
      ⟨false, some "File too large. Maximum size is 10MB."⟩
    else
      ⟨true, none⟩

/-- FormProcessingService.isPDF. -/
def isPDFFileRec (f : FileRec) : Bool := f.type == "application/pdf"

/-- The mapping applied to one raw response field
(part_003 lines 288-296, the body of the `.map` callback). -/
def formatOneField (pageNumber : Nat) (index : Nat) (f : RawField) : Field :=
  { id := "field_" ++ toString index ++ "_" ++ toString pageNumber
    label := jsOrStr f.label ("Field " ++ toString (index + 1))
    value := jsOrStr f.value ""
    type := jsOrStr f.type "text"
    confidence := jsOrRat f.confidence 0.8
    verified := false
    page := none
    boundingBox := f.boundingBox }

/-- The `.map((field, index) => ...)` over the raw fields, carrying the
running index explicitly. -/
def formatFieldsFrom (pageNumber : Nat) : Nat → List RawField → List Field
  | _, [] => []
  | i, f :: rest => formatOneField pageNumber i f :: formatFieldsFrom pageNumber (i + 1) rest

/-- FormProcessingService.formatExtractedData (part_003 lines 273-298).
The `summary` key of the raw data is dropped; `formTitle` is spread
through unchanged when raw fields are present. -/
def formatExtractedData (rawData : Option RawData) (pageNumber : Nat) (now : String) :
    ExtractedData :=
  match rawData with
  | none => ⟨some "Unknown Form", [], now⟩
  | some rd =>
    match rd.fields with
    | none => ⟨some "Unknown Form", [], now⟩
    | some fs => ⟨rd.formTitle, formatFieldsFrom pageNumber 0 fs, now⟩

/-! AIProviderService -/

/-- The fixed priority order scanned by `getDefaultProvider`
(PromptService.js companion file, line 98). -/
def priorityOrder : List String := ["gemini", "gpt-4o", "claude"]

/-- AIProviderService.getDefaultProvider (lines 96-108): first configured
provider in priority order, otherwise the literal fallback. -/
def getDefaultProvider (isConfigured : String → Bool) : String :=
  match priorityOrder.find? isConfigured with
  | some p => p
  | none => "gpt-4o"

/-- Display name per provider key, from the `providers` map keys. -/
def providerDisplayName (key : String) : Option String :=
  if key = "gpt-4o" then some "GPT-4o"
  else if key = "gemini" then some "Gemini 2.5"
  else if key = "claude" then some "Claude 3.5"
  else none

/-! The extraction pipeline (formStore.extractFields) -/

/-- Oracle for the per-page rasterize-then-extract call: for a page
number, either the thrown error message or the raw provider response. -/
abbrev ProviderOracle := Nat → Except String (Option RawData)

/-- Attach a page number to a formatted field, `{...field, page: pageNum}`. -/
def Field.withPage (f : Field) (p : Nat) : Field := { f with page := some p }

deriving instance DecidableEq for Except

/-- Outcome of the per-page for loop: either the failing page and message,
or the accumulated fields and the local `formTitle` variable; plus the
last published `extractedData` and the trace of pages on which the
provider oracle was invoked. -/
structure LoopOut where
  result : Except (Nat × String) (List Field × Option String)
  published : Option ExtractedData
  calls : List Nat
  deriving Repr, DecidableEq

/-- The `formTitle` stored by the incremental publish on line 154:
`formTitle || state.extractedData?.formTitle || ''`. -/
def publishTitle (fTitle : Option String) (pub : Option ExtractedData) : Option String :=
  orOptStr fTitle (orOptStr (pub.bind ExtractedData.formTitle) (some ""))

/-- The for loop of `extractFields` (part_006 lines 126-159): process the
given page numbers in order; on each success, append the page-tagged
fields and publish the merged data; on the first failure stop, leaving
the last published data in place. -/
def pageLoop (oracle : ProviderOracle) (now : String) :
    List Nat → List Field → Option String → Option ExtractedData → LoopOut
  | [], acc, fTitle, pub => ⟨.ok (acc, fTitle), pub, []⟩
  | p :: rest, acc, fTitle, pub =>
    match oracle p with
    | .error e => ⟨.error (p, e), pub, [p]⟩
    | .ok raw =>
      let fd := formatExtractedData raw p now
      let fTitle1 := if p = 1 then fd.formTitle else fTitle
      let acc1 := acc ++ fd.fields.map (fun f => f.withPage p)
      let out := pageLoop oracle now rest acc1 fTitle1
        (some ⟨publishTitle fTitle1 pub, acc1, now⟩)
      ⟨out.result, out.published, p :: out.calls⟩

/-- Result of one `extractFields` invocation: the returned value or thrown
message, the resulting store state, and the trace of attempted pages. -/
structure ExtractResult where
  result : Except String ExtractedData
  state : StoreState
  calls : List Nat
  deriving Repr, DecidableEq

/-- The history entry built on success (part_006 lines 181-188). -/
def mkHistoryEntry (nowMs : Nat) (filename : String) (now : String)
    (fieldsCount : Nat) (fTitle : Option String) (selectedProvider : String) :
    HistoryEntry :=
  { id := nowMs
    filename := filename
    extractedAt := now
    fieldsCount := fieldsCount
    formTitle := fTitle
    provider := jsOrStr (providerDisplayName selectedProvider) selectedProvider }

/-- The success continuation of `extractFields` (part_006 lines 171-197):
build `finalData`, prepend the history entry bounded to 10, clear the
progress flags. -/
def finishSuccess (now : String) (nowMs : Nat) (form : FileRec)
    (st1 : StoreState) (allFields : List Field) (fTitle : Option String) :
    Except String ExtractedData × StoreState :=
  let finalData : ExtractedData := ⟨fTitle, allFields, now⟩
  let entry := mkHistoryEntry nowMs form.name now allFields.length fTitle st1.selectedProvider
  (.ok finalData,
    { st1 with
        extractedData := some finalData
        processing := false
        processingPage := none
        history := (entry :: st1.history).take 10 })

/-- formStore.extractFields (part_006 lines 111-202). The guard is only
the missing-form check; the multi-page branch requires a PDF with more
than one page and a retained original file. -/
def extractFields (oracle : ProviderOracle) (now : String) (nowMs : Nat)
    (st : StoreState) : ExtractResult :=
  match st.currentForm with
  | none => ⟨.error "No form uploaded", st, []⟩
  | some form =>
    let st1 := { st with processing := true, error := none }
    if st.isPDF = true ∧ 1 < st.totalPages ∧ st.originalFile.isSome = true then
      let out := pageLoop oracle now (List.range' 1 st.totalPages) [] (some "")
        st1.extractedData
      match out.result with
      | .error pe =>
        ⟨.error pe.2,
          { st1 with
              extractedData := out.published
              error := some pe.2
              processing := false
              processingPage := none },
          out.calls⟩
      | .ok r =>
        let fin := finishSuccess now nowMs form st1 r.1 r.2
        ⟨fin.1, fin.2, out.calls⟩
    else
      match oracle 1 with
      | .error e =>
        ⟨.error e,
          { st1 with error := some e, processing := false, processingPage := none },
          [1]⟩
      | .ok raw =>
        let fd := formatExtractedData raw 1 now
        let allFields := fd.fields.map (fun f => f.withPage 1)
        let fin := finishSuccess now nowMs form st1 allFields fd.formTitle
        ⟨fin.1, fin.2, [1]⟩

/-! FieldStore operations (set-callback bodies of the store actions;
they all act on a non-null extractedData object) -/

/-- The `updates` object passed to `updateField`. -/
structure FieldUpdates where
  label : Option String
  value : Option String
  deriving Repr, DecidableEq

/-- formStore.updateField (part_006 lines 209-218): spread the updates
over the matching field and mark it verified. -/
def updateField (fieldId : String) (updates : FieldUpdates) (d : ExtractedData) :
    ExtractedData :=
  { d with
      fields := d.fields.map (fun f =>
        if f.id = fieldId then
          { f with
              label := updates.label.getD f.label
              value := updates.value.getD f.value
              verified := true }
        else f) }

/-- formStore.toggleFieldVerification (part_006 lines 224-233). -/
def toggleFieldVerification (fieldId : String) (d : ExtractedData) : ExtractedData :=
  { d with
      fields := d.fields.map (fun f =>
        if f.id = fieldId then { f with verified := !f.verified } else f) }

/-- The `fieldData` argument of `addField`. -/
structure NewFieldData where
  label : Option String
  value : Option String
  type : Option String
  page : Option Nat
  deriving Repr, DecidableEq

/-- The new field built by `addField` (part_006 lines 253-264). -/
def mkAddedField (fieldData : NewFieldData) (currentPage : Nat) (nowMs : Nat) : Field :=
  let pageNum := jsOrNat fieldData.page (jsOrNat0 currentPage 1)
  { id := "field_" ++ toString nowMs ++ "_" ++ toString pageNum
    label := jsOrStr fieldData.label "New Field"
    value := jsOrStr fieldData.value ""
    type := jsOrStr fieldData.type "text"
    confidence := 1
    verified := true
    page := some pageNum
    boundingBox := none }

/-- formStore.addField (part_006 lines 252-272). -/
def addField (fieldData : NewFieldData) (currentPage : Nat) (nowMs : Nat)
    (d : ExtractedData) : ExtractedData :=
  { d with fields := d.fields ++ [mkAddedField fieldData currentPage nowMs] }

/-! Upload (formStore.uploadForm) -/

/-- formStore.uploadForm (part_006 lines 42-84). The asynchronous results
of `getPDFPageCount`, `URL.createObjectURL` and the page-image blob size
are passed as parameters `pdfPageCount`, `previewURL`, `pageImageSize`
(conversion failures are not exercised by the claims and are not
modelled). Returns the thrown message or unit, with the new state. -/
def uploadForm (pdfPageCount : Nat) (previewURL : String) (pageImageSize : Nat)
    (file : Option FileRec) (st : StoreState) : Except String Unit × StoreState :=
  let st1 := { st with processing := true, error := none }
  let validation := validateImageFile file
  if !validation.valid then
    let msg := validation.error.getD ""
    (.error msg, { st1 with error := some msg, processing := false })
  else
    match file with
    | none =>
      -- unreachable: validation already rejected a missing file
      (.error "No file provided",
        { st1 with error := some "No file provided", processing := false })
    | some f =>
      let isPDFFile := isPDFFileRec f
      let fileToProcess := if isPDFFile then FileRec.mk f.name "image/png" pageImageSize else f
      let pageCount := if isPDFFile then pdfPageCount else 1
      (.ok (),
        { st1 with
            currentForm := some fileToProcess
            originalFile := if isPDFFile then some f else none
            imagePreview := some previewURL
            extractedData := none
            processing := false
            isPDF := isPDFFile
            currentPage := 1
            totalPages := pageCount })

/-! Helper lemmas -/

/-- A map whose function is the identity on every element of the list is
the identity. -/
theorem map_pointwise_id {α : Type} {l : List α} {g : α → α}
    (h : ∀ a ∈ l, g a = a) : l.map g = l := by
  induction l with
  | nil => rfl
  | cons x xs ih =>
    simp only [List.map_cons, h x (by simp)]
    rw [ih (fun a ha => h a (by simp [ha]))]

/-- The page-tagged formatted fields of one page, as appended by the loop
body for a run whose oracle answers `raw p` on page `p`. -/
def pageFieldsAt (raw : Nat → Option RawData) (now : String) (p : Nat) : List Field :=
  (formatExtractedData (raw p) p now).fields.map (fun f => f.withPage p)

/-- The concatenated page-tagged fields of pages `k, k+1, ..., k+n-1`. -/
def rangeFields (raw : Nat → Option RawData) (now : String) (k n : Nat) : List Field :=
  (List.range' k n).flatMap (pageFieldsAt raw now)

/-- Unfolding `rangeFields` one page at a time. -/
theorem rangeFields_succ (raw : Nat → Option RawData) (now : String) (k n : Nat) :
    rangeFields raw now k (n + 1) =
      pageFieldsAt raw now k ++ rangeFields raw now (k + 1) n := by
  simp [rangeFields, List.range'_succ]

/-- A single page of `rangeFields`. -/
theorem rangeFields_one (raw : Nat → Option RawData) (now : String) (k : Nat) :
    rangeFields raw now k 1 = pageFieldsAt raw now k := by
  simp [rangeFields]

/-- The length of `rangeFields` is the sum of the per-page field counts. -/
theorem rangeFields_length (raw : Nat → Option RawData) (now : String) (k n : Nat) :
    (rangeFields raw now k n).length =
      ((List.range' k n).map
        (fun p => (formatExtractedData (raw p) p now).fields.length)).sum := by
  simp only [rangeFields, List.length_flatMap]
  congr 1
  apply List.map_congr_left
  intro p _
  simp [pageFieldsAt, Function.comp]

/-- Every field of `rangeFields` carries a page tag in `[k, k+n)`. -/
theorem mem_rangeFields_page (raw : Nat → Option RawData) (now : String)
    (k n : Nat) (f : Field) (h : f ∈ rangeFields raw now k n) :
    ∃ p, f.page = some p ∧ k ≤ p ∧ p < k + n := by
  simp only [rangeFields, List.mem_flatMap, pageFieldsAt, List.mem_map,
    List.mem_range'_1] at h
  obtain ⟨p, hp, g, _, rfl⟩ := h
  exact ⟨p, rfl, hp.1, hp.2⟩

/-- The empty string is falsy. -/
theorem truthyStr_empty : truthyStr (some "") = false := rfl

/-- The published title stabilizes: republishing over an already published
state does not change it. -/
theorem publishTitle_stable (t : Option String) (pub : Option ExtractedData)
    (fs : List Field) (now : String) :
    publishTitle t (some ⟨publishTitle t pub, fs, now⟩) = publishTitle t pub := by
  by_cases ht : truthyStr t = true
  · simp [publishTitle, orOptStr, ht]
  · rw [Bool.not_eq_true] at ht
    by_cases hq : truthyStr (pub.bind ExtractedData.formTitle) = true
    · simp [publishTitle, orOptStr, ht, hq]
    · rw [Bool.not_eq_true] at hq
      simp [publishTitle, orOptStr, ht, hq, truthyStr_empty]

/-- Folding the page-tagged map back into `pageFieldsAt`. -/
theorem pageFieldsAt_eq (raw : Nat → Option RawData) (now : String) (p : Nat) :
    (formatExtractedData (raw p) p now).fields.map (fun f => f.withPage p) =
      pageFieldsAt raw now p := rfl

/-- One successful step of the page loop, with the recursion left
unevaluated. -/
theorem pageLoop_cons_ok (oracle : ProviderOracle) (now : String) (p : Nat)
    (rest : List Nat) (acc : List Field) (t : Option String)
    (pub : Option ExtractedData) (raw0 : Option RawData)
    (h : oracle p = .ok raw0) :
    pageLoop oracle now (p :: rest) acc t pub =
      ⟨(pageLoop oracle now rest
          (acc ++ (formatExtractedData raw0 p now).fields.map (fun f => f.withPage p))
          (if p = 1 then (formatExtractedData raw0 p now).formTitle else t)
          (some ⟨publishTitle
              (if p = 1 then (formatExtractedData raw0 p now).formTitle else t) pub,
            acc ++ (formatExtractedData raw0 p now).fields.map (fun f => f.withPage p),
            now⟩)).result,
       (pageLoop oracle now rest
          (acc ++ (formatExtractedData raw0 p now).fields.map (fun f => f.withPage p))
          (if p = 1 then (formatExtractedData raw0 p now).formTitle else t)
          (some ⟨publishTitle
              (if p = 1 then (formatExtractedData raw0 p now).formTitle else t) pub,
            acc ++ (formatExtractedData raw0 p now).fields.map (fun f => f.withPage p),
            now⟩)).published,
       p :: (pageLoop oracle now rest
          (acc ++ (formatExtractedData raw0 p now).fields.map (fun f => f.withPage p))
          (if p = 1 then (formatExtractedData raw0 p now).formTitle else t)
          (some ⟨publishTitle
              (if p = 1 then (formatExtractedData raw0 p now).formTitle else t) pub,
            acc ++ (formatExtractedData raw0 p now).fields.map (fun f => f.withPage p),
            now⟩)).calls⟩ := by
  simp only [pageLoop, h]

/-- A fully successful run of the page loop over pages `k, ..., k+n-1`
with `k ≥ 2`: it returns the accumulated page-tagged fields, keeps the
title variable unchanged, publishes the merged data, and calls the
provider once per page. -/
theorem pageLoop_range'_ok (oracle : ProviderOracle) (raw : Nat → Option RawData)
    (now : String) :
    ∀ (n k : Nat) (acc : List Field) (t : Option String) (pub : Option ExtractedData),
      2 ≤ k →
      (∀ p, k ≤ p → p < k + n → oracle p = .ok (raw p)) →
      pageLoop oracle now (List.range' k n) acc t pub =
        ⟨.ok (acc ++ rangeFields raw now k n, t),
         if n = 0 then pub
         else some ⟨publishTitle t pub, acc ++ rangeFields raw now k n, now⟩,
         List.range' k n⟩ := by
  intro n
  induction n with
  | zero =>
    intro k acc t pub _ _
    simp [pageLoop, rangeFields]
  | succ m ih =>
    intro k acc t pub hk hok
    have hokk : oracle k = .ok (raw k) := hok k (le_refl k) (by omega)
    rw [List.range'_succ,
      pageLoop_cons_ok oracle now k (List.range' (k + 1) m) acc t pub (raw k) hokk,
      if_neg (by omega : ¬ (k = 1)), pageFieldsAt_eq,
      ih (k + 1) (acc ++ pageFieldsAt raw now k) t
        (some ⟨publishTitle t pub, acc ++ pageFieldsAt raw now k, now⟩)
        (by omega) (fun p h1 h2 => hok p (by omega) (by omega))]
    by_cases hm : m = 0
    · subst hm
      simp [rangeFields_one, rangeFields_succ, rangeFields]
    · simp only [hm, if_false, publishTitle_stable, rangeFields_succ,
        List.append_assoc, if_neg (Nat.succ_ne_zero m), List.range'_succ]

/-- A page-loop run whose oracle fails at page `K` (pages before `K`
succeed), started at page `k` with `2 ≤ k ≤ K`: the loop stops at `K`
with the failing page and message, leaves the data published after page
`K - 1` in place, and never calls the provider past page `K`. -/
theorem pageLoop_range'_err (oracle : ProviderOracle) (raw : Nat → Option RawData)
    (now : String) (K : Nat) (msg : String)
    (hok : ∀ p, 1 ≤ p → p < K → oracle p = .ok (raw p))
    (herr : oracle K = .error msg) :
    ∀ (n k : Nat) (acc : List Field) (t : Option String) (pub : Option ExtractedData),
      2 ≤ k → k ≤ K → K < k + n →
      pageLoop oracle now (List.range' k n) acc t pub =
        ⟨.error (K, msg),
         if K = k then pub
         else some ⟨publishTitle t pub, acc ++ rangeFields raw now k (K - k), now⟩,
         List.range' k (K - k + 1)⟩ := by
  intro n
  induction n with
  | zero =>
    intro k acc t pub _ hkK hKn
    omega
  | succ m ih =>
    intro k acc t pub hk hkK hKn
    rw [List.range'_succ]
    by_cases hKk : K = k
    · subst hKk
      simp [pageLoop, herr, Nat.sub_self]
    · have hkK' : k < K := by omega
      have hokk : oracle k = .ok (raw k) := hok k (by omega) hkK'
      rw [pageLoop_cons_ok oracle now k (List.range' (k + 1) m) acc t pub (raw k) hokk,
        if_neg (by omega : ¬ (k = 1)), pageFieldsAt_eq,
        ih (k + 1) (acc ++ pageFieldsAt raw now k) t
          (some ⟨publishTitle t pub, acc ++ pageFieldsAt raw now k, now⟩)
          (by omega) (by omega) (by omega)]
      by_cases hKk1 : K = k + 1
      · subst hKk1
        rw [if_pos (rfl : (k + 1 : Nat) = k + 1), if_neg hKk,
          show k + 1 - k = 1 from by omega, rangeFields_one,
          show k + 1 - (k + 1) + 1 = 1 from by omega, List.range'_succ k 1 1]
      · simp only [if_neg hKk1, if_neg hKk, publishTitle_stable, List.append_assoc]
        rw [show K - k = (K - (k + 1)) + 1 from by omega, rangeFields_succ,
          List.range'_succ k (K - (k + 1) + 1) 1]

/-- A fully successful multi-page run of `extractFields`: the result and
state are the success continuation applied to all page-tagged fields and
the title of page 1, and the provider is called once per page in order. -/
theorem extractFields_multipage_ok (oracle : ProviderOracle)
    (raw : Nat → Option RawData) (now : String) (nowMs : Nat)
    (st : StoreState) (form : FileRec) (m : Nat)
    (hform : st.currentForm = some form) (hpdf : st.isPDF = true)
    (hN : st.totalPages = m + 2) (horig : st.originalFile.isSome = true)
    (hok : ∀ p, 1 ≤ p → p ≤ m + 2 → oracle p = .ok (raw p)) :
    extractFields oracle now nowMs st =
      ⟨(finishSuccess now nowMs form { st with processing := true, error := none }
          (rangeFields raw now 1 (m + 2))
          ((formatExtractedData (raw 1) 1 now).formTitle)).1,
       (finishSuccess now nowMs form { st with processing := true, error := none }
          (rangeFields raw now 1 (m + 2))
          ((formatExtractedData (raw 1) 1 now).formTitle)).2,
       List.range' 1 (m + 2)⟩ := by
  have h1 : oracle 1 = .ok (raw 1) := hok 1 (by omega) (by omega)
  simp only [extractFields, hform, hN]
  rw [if_pos ⟨hpdf, by omega, horig⟩,
    List.range'_succ 1 (m + 1) 1,
    pageLoop_cons_ok oracle now 1 (List.range' (1 + 1) (m + 1)) []
      (some "") st.extractedData (raw 1) h1,
    if_pos (rfl : (1 : Nat) = 1), pageFieldsAt_eq, List.nil_append,
    pageLoop_range'_ok oracle raw now (m + 1) (1 + 1) (pageFieldsAt raw now 1)
      ((formatExtractedData (raw 1) 1 now).formTitle)
      (some ⟨publishTitle ((formatExtractedData (raw 1) 1 now).formTitle)
          st.extractedData, pageFieldsAt raw now 1, now⟩)
      (by omega) (fun p hp1 hp2 => hok p (by omega) (by omega)),
    ← rangeFields_succ raw now 1 (m + 1)]

/-- A multi-page run of `extractFields` whose provider call fails at page
`K` with `2 ≤ K ≤ N`: the run returns the failing message, keeps the
fields published for pages `1..K-1`, records the message in the error
slot, clears the progress flags, and never calls the provider past page
`K`. -/
theorem extractFields_multipage_err (oracle : ProviderOracle)
    (raw : Nat → Option RawData) (now : String) (nowMs : Nat)
    (st : StoreState) (form : FileRec) (m K : Nat) (msg : String)
    (hform : st.currentForm = some form) (hpdf : st.isPDF = true)
    (hN : st.totalPages = m + 2) (horig : st.originalFile.isSome = true)
    (hK2 : 2 ≤ K) (hKN : K ≤ m + 2)
    (hok : ∀ p, 1 ≤ p → p < K → oracle p = .ok (raw p))
    (herr : oracle K = .error msg) :
    extractFields oracle now nowMs st =
      ⟨.error msg,
       { st with
           extractedData := some ⟨publishTitle
               ((formatExtractedData (raw 1) 1 now).formTitle) st.extractedData,
             rangeFields raw now 1 (K - 1), now⟩,
           error := some msg
           processing := false
           processingPage := none },
       List.range' 1 K⟩ := by
  have h1 : oracle 1 = .ok (raw 1) := hok 1 (by omega) (by omega)
  simp only [extractFields, hform, hN]
  rw [if_pos ⟨hpdf, by omega, horig⟩,
    List.range'_succ 1 (m + 1) 1,
    pageLoop_cons_ok oracle now 1 (List.range' (1 + 1) (m + 1)) []
      (some "") st.extractedData (raw 1) h1,
    if_pos (rfl : (1 : Nat) = 1), pageFieldsAt_eq, List.nil_append,
    pageLoop_range'_err oracle raw now K msg hok herr (m + 1) (1 + 1)
      (pageFieldsAt raw now 1) ((formatExtractedData (raw 1) 1 now).formTitle)
      (some ⟨publishTitle ((formatExtractedData (raw 1) 1 now).formTitle)
          st.extractedData, pageFieldsAt raw now 1, now⟩)
      (by omega) (by omega) (by omega)]
  by_cases hK : K = 1 + 1
  · subst hK
    rw [if_pos (rfl : (1 + 1 : Nat) = 1 + 1),
      show (1 + 1 : Nat) - 1 = 1 from rfl, rangeFields_one,
      List.range'_succ 1 1 1]
  · have hcalls : List.range' 1 K = 1 :: List.range' (1 + 1) (K - (1 + 1) + 1) := by
      conv_lhs => rw [show K = (K - (1 + 1) + 1) + 1 from by omega]
      rw [List.range'_succ 1 (K - (1 + 1) + 1) 1]
    rw [if_neg hK, publishTitle_stable,
      show K - 1 = (K - (1 + 1)) + 1 from by omega, rangeFields_succ, hcalls]

/-! Claim C1 -/

/-- C1: for a multi-page document with N pages, after a fully successful
extraction run the size of the merged field collection is the sum of the
per-page field counts, the page tag of every field lies in [1, N], and the
formTitle of the result is the title reported by page 1 (titles reported by
later pages are ignored, since the conclusion depends only on the response of page 1). -/
theorem c1_multipage_success (oracle : ProviderOracle) (raw : Nat → Option RawData)
    (now : String) (nowMs : Nat) (st : StoreState) (form : FileRec) (N : Nat)
    (hform : st.currentForm = some form) (hpdf : st.isPDF = true)
    (hN : st.totalPages = N) (hN1 : 1 < N) (horig : st.originalFile.isSome = true)
    (hok : ∀ p, 1 ≤ p → p ≤ N → oracle p = .ok (raw p)) :
    ∃ d : ExtractedData,
      (extractFields oracle now nowMs st).result = .ok d ∧
      (extractFields oracle now nowMs st).state.extractedData = some d ∧
      d.fields.length =
        ((List.range' 1 N).map
          (fun p => (formatExtractedData (raw p) p now).fields.length)).sum ∧
      (∀ f ∈ d.fields, ∃ p, f.page = some p ∧ 1 ≤ p ∧ p ≤ N) ∧
      d.formTitle = (formatExtractedData (raw 1) 1 now).formTitle := by
  obtain ⟨m, rfl⟩ : ∃ m, N = m + 2 := ⟨N - 2, by omega⟩
  have h := extractFields_multipage_ok oracle raw now nowMs st form m
    hform hpdf hN horig hok
  refine ⟨⟨(formatExtractedData (raw 1) 1 now).formTitle,
    rangeFields raw now 1 (m + 2), now⟩, ?_, ?_, ?_, ?_, rfl⟩
  · rw [h]
    rfl
  · rw [h]
    rfl
  · exact rangeFields_length raw now 1 (m + 2)
  · intro f hf
    obtain ⟨p, hp1, hp2, hp3⟩ := mem_rangeFields_page raw now 1 (m + 2) f hf
    exact ⟨p, hp1, hp2, by omega⟩

/-- Per-page raw response used by the C1 witness. -/
def c1RawPage : Option RawData :=
  some ⟨some "Application", some [⟨some "Name", some "Ann", some "text", none, none⟩], none⟩

/-- Oracle for the C1 witness: every page succeeds. -/
def c1Oracle : ProviderOracle := fun _ => .ok c1RawPage

/-- Raw-response function for the C1 witness. -/
def c1Raw : Nat → Option RawData := fun _ => c1RawPage

/-- Store state for the C1 witness: a 2-page PDF session. -/
def c1State : StoreState :=
  ⟨some ⟨"form.pdf", "image/png", 900⟩, some ⟨"form.pdf", "application/pdf", 1000⟩,
   none, false, none, [], some "blob:x", "gemini", true, 1, 2, none, none⟩

/-- Witness for C1: a concrete fully successful 2-page run. -/
theorem c1_multipage_success_witness :
    ∃ d : ExtractedData,
      (extractFields c1Oracle "t0" 7 c1State).result = .ok d ∧
      (extractFields c1Oracle "t0" 7 c1State).state.extractedData = some d ∧
      d.fields.length =
        ((List.range' 1 2).map
          (fun p => (formatExtractedData (c1Raw p) p "t0").fields.length)).sum ∧
      (∀ f ∈ d.fields, ∃ p, f.page = some p ∧ 1 ≤ p ∧ p ≤ 2) ∧
      d.formTitle = (formatExtractedData (c1Raw 1) 1 "t0").formTitle :=
  c1_multipage_success c1Oracle c1Raw "t0" 7 c1State ⟨"form.pdf", "image/png", 900⟩ 2
    rfl rfl rfl (by omega) rfl (fun p h1 h2 => rfl)

/-! Claim C2 -/

/-- Per-page raw response used by the C2 theorems. -/
def c2RawPage : Option RawData := some ⟨some "T", some [], none⟩

/-- Oracle for the C2 theorems: the provider succeeds. -/
def c2Oracle : ProviderOracle := fun _ => .ok c2RawPage

/-- Store state for the C2 counterexample: an extraction is already
running (`processing = true`) and a form is loaded. -/
def c2State : StoreState :=
  ⟨some ⟨"a.png", "image/png", 5⟩, none, none, true, none, [], some "blob:x",
   "gemini", false, 1, 1, none, none⟩

/-- C2 counterexample: the claim says an extraction invoked while one is
already running is rejected with AlreadyProcessingError and starts no
second run.  The store has no such guard: with `processing = true` the
call runs the full pipeline anyway — the provider is invoked (calls
= [1]), the run completes with an ok result, and the error slot stays
empty.  No AlreadyProcessingError exists anywhere in the repository. -/
theorem c2_counterexample :
    c2State.processing = true ∧
    (extractFields c2Oracle "t0" 7 c2State).result = .ok ⟨some "T", [], "t0"⟩ ∧
    (extractFields c2Oracle "t0" 7 c2State).calls = [1] ∧
    (extractFields c2Oracle "t0" 7 c2State).state.error = none ∧
    (extractFields c2Oracle "t0" 7 c2State).state.processing = false :=
  ⟨rfl, rfl, rfl, rfl, rfl⟩

/-- C2 (amended): the extraction operation has no re-entrancy guard: when
a form is loaded, its outcome is completely independent of the
`processing` flag, so a call made while an extraction is already running
proceeds exactly as if none were running (re-entrancy is discouraged only
by the UI disabling its controls while `processing` is true). -/
theorem c2_no_reentrancy_guard (oracle : ProviderOracle) (now : String) (nowMs : Nat)
    (st : StoreState) (form : FileRec) (b : Bool)
    (hform : st.currentForm = some form) :
    extractFields oracle now nowMs { st with processing := b } =
      extractFields oracle now nowMs st := by
  obtain ⟨cf, og, ed, pr, er, hi, ip, sp, ipdf, cp, tp, pp, hf⟩ := st
  replace hform : cf = some form := hform
  subst hform
  rfl

/-- Witness for C2: the concrete running-session state behaves the same
with the flag cleared. -/
theorem c2_no_reentrancy_guard_witness :
    extractFields c2Oracle "t0" 7 { c2State with processing := false } =
      extractFields c2Oracle "t0" 7 c2State :=
  c2_no_reentrancy_guard c2Oracle "t0" 7 c2State ⟨"a.png", "image/png", 5⟩ false rfl

/-! Claim C3 -/

/-- C3 (amended): when the provider call for page K (2 ≤ K ≤ N) of a
multi-page run fails, the run stops with that failure: the fields already
published for pages 1..K-1 remain in the extracted-data collection (they
are not rolled back), no page after K is attempted (the call trace is
exactly pages 1..K), and the reported failure carries the underlying
provider error message unchanged; the originating page number is not part
of the reported failure (the progress marker is reset to none). -/
theorem c3_failure_midrun (oracle : ProviderOracle) (raw : Nat → Option RawData)
    (now : String) (nowMs : Nat) (st : StoreState) (form : FileRec)
    (N K : Nat) (msg : String)
    (hform : st.currentForm = some form) (hpdf : st.isPDF = true)
    (hN : st.totalPages = N) (hN1 : 1 < N) (horig : st.originalFile.isSome = true)
    (hK2 : 2 ≤ K) (hKN : K ≤ N)
    (hok : ∀ p, 1 ≤ p → p < K → oracle p = .ok (raw p))
    (herr : oracle K = .error msg) :
    (extractFields oracle now nowMs st).result = .error msg ∧
    (extractFields oracle now nowMs st).calls = List.range' 1 K ∧
    Option.map ExtractedData.fields
        (extractFields oracle now nowMs st).state.extractedData =
      some (rangeFields raw now 1 (K - 1)) ∧
    (extractFields oracle now nowMs st).state.error = some msg ∧
    (extractFields oracle now nowMs st).state.processing = false ∧
    (extractFields oracle now nowMs st).state.processingPage = none := by
  obtain ⟨m, rfl⟩ : ∃ m, N = m + 2 := ⟨N - 2, by omega⟩
  have h := extractFields_multipage_err oracle raw now nowMs st form m K msg
    hform hpdf hN horig hK2 hKN hok herr
  rw [h]
  exact ⟨rfl, rfl, rfl, rfl, rfl, rfl⟩

/-- Per-page raw response used by the C3 theorems. -/
def c3RawPage : Option RawData :=
  some ⟨some "Application", some [⟨some "Name", some "Ann", some "text", none, none⟩], none⟩

/-- Oracle for the C3 theorems: page 1 succeeds, later pages fail with the
bare message "boom". -/
def c3Oracle : ProviderOracle :=
  fun p => if p = 1 then .ok c3RawPage else .error "boom"

/-- Raw-response function for the C3 theorems. -/
def c3Raw : Nat → Option RawData := fun _ => c3RawPage

/-- Store state for the C3 theorems: a 3-page PDF session. -/
def c3State : StoreState :=
  ⟨some ⟨"form.pdf", "image/png", 900⟩, some ⟨"form.pdf", "application/pdf", 1000⟩,
   none, false, none, [], some "blob:x", "gemini", true, 1, 3, none, none⟩

/-- C3 counterexample: the claim says the reported failure carries the
originating page number.  In a concrete 3-page run failing at page 2 with
provider message "boom", everything the failure reports is the bare
string "boom" — the thrown value and the stored error are exactly the
message of the provider, which contains no page number — and the progress
marker `processingPage` is reset to none rather than left at the failing
page. -/
theorem c3_counterexample :
    (extractFields c3Oracle "t0" 7 c3State).state.error = some "boom" ∧
    (extractFields c3Oracle "t0" 7 c3State).state.processingPage = none ∧
    (extractFields c3Oracle "t0" 7 c3State).result = .error "boom" :=
  ⟨rfl, rfl, rfl⟩

/-- Witness for C3: the concrete 3-page run failing at page 2 keeps page
the published fields of page 1, attempts exactly pages 1 and 2, and reports the
bare message. -/
theorem c3_failure_midrun_witness :
    (extractFields c3Oracle "t0" 7 c3State).result = .error "boom" ∧
    (extractFields c3Oracle "t0" 7 c3State).calls = List.range' 1 2 ∧
    Option.map ExtractedData.fields
        (extractFields c3Oracle "t0" 7 c3State).state.extractedData =
      some (rangeFields c3Raw "t0" 1 (2 - 1)) ∧
    (extractFields c3Oracle "t0" 7 c3State).state.error = some "boom" ∧
    (extractFields c3Oracle "t0" 7 c3State).state.processing = false ∧
    (extractFields c3Oracle "t0" 7 c3State).state.processingPage = none :=
  c3_failure_midrun c3Oracle c3Raw "t0" 7 c3State ⟨"form.pdf", "image/png", 900⟩ 3 2
    "boom" rfl rfl rfl (by omega) rfl (by omega) (by omega)
    (fun p h1 h2 => by
      have hp : p = 1 := by omega
      subst hp
      rfl)
    rfl

/-! Claim C8 -/

/-- C8: every successful extraction run prepends one history entry —
recording the filename, field count, title, provider display name and
timestamp — and bounds the list to the 10 most recent entries, keeping
the first 9 old entries and dropping the rest (the oldest, since the list
is most-recent-first). -/
theorem c8_history_bound (oracle : ProviderOracle) (now : String) (nowMs : Nat)
    (st : StoreState) (d : ExtractedData)
    (h : (extractFields oracle now nowMs st).result = .ok d) :
    ∃ form, st.currentForm = some form ∧
      (extractFields oracle now nowMs st).state.history =
        (mkHistoryEntry nowMs form.name now d.fields.length d.formTitle
          st.selectedProvider :: st.history).take 10 ∧
      (extractFields oracle now nowMs st).state.history.length ≤ 10 ∧
      (extractFields oracle now nowMs st).state.history =
        mkHistoryEntry nowMs form.name now d.fields.length d.formTitle
          st.selectedProvider :: st.history.take 9 := by
  have hX := h
  simp only [extractFields] at hX ⊢
  cases hcf : st.currentForm with
  | none =>
    rw [hcf] at hX
    dsimp only at hX
    exact Except.noConfusion hX
  | some form =>
    rw [hcf] at hX
    dsimp only at hX ⊢
    refine ⟨form, rfl, ?_⟩
    by_cases hc : st.isPDF = true ∧ 1 < st.totalPages ∧ st.originalFile.isSome = true
    · rw [if_pos hc] at hX ⊢
      rcases hout : (pageLoop oracle now (List.range' 1 st.totalPages) [] (some "")
          st.extractedData).result with pe | r
      · rw [hout] at hX
        dsimp only at hX
        exact Except.noConfusion hX
      · rw [hout] at hX
        dsimp only [finishSuccess] at hX ⊢
        injection hX with hd
        subst hd
        refine ⟨rfl, ?_, ?_⟩
        · rw [List.length_take]
          omega
        · rw [show (10 : Nat) = 9 + 1 from rfl, List.take_succ_cons]
    · rw [if_neg hc] at hX ⊢
      rcases ho1 : oracle 1 with e | raw0
      · rw [ho1] at hX
        dsimp only at hX
        exact Except.noConfusion hX
      · rw [ho1] at hX
        dsimp only [finishSuccess] at hX ⊢
        injection hX with hd
        subst hd
        refine ⟨rfl, ?_, ?_⟩
        · rw [List.length_take]
          omega
        · rw [show (10 : Nat) = 9 + 1 from rfl, List.take_succ_cons]

/-- Per-page raw response used by the C8 witness. -/
def c8RawPage : Option RawData := some ⟨some "T", some [], none⟩

/-- Oracle for the C8 witness: the provider succeeds. -/
def c8Oracle : ProviderOracle := fun _ => .ok c8RawPage

/-- One old history entry for the C8 witness. -/
def c8Entry (i : Nat) : HistoryEntry := ⟨i, "old.png", "t-old", 0, none, "GPT-4o"⟩

/-- Store state for the C8 witness: a full history of 10 old entries. -/
def c8State : StoreState :=
  ⟨some ⟨"a.png", "image/png", 5⟩, none, none, false, none,
   [c8Entry 0, c8Entry 1, c8Entry 2, c8Entry 3, c8Entry 4, c8Entry 5, c8Entry 6,
    c8Entry 7, c8Entry 8, c8Entry 9], some "blob:x", "gemini", false, 1, 1, none, none⟩

/-- Witness for C8: a concrete successful run against a full 10-entry
history. -/
theorem c8_history_bound_witness :
    ∃ form, c8State.currentForm = some form ∧
      (extractFields c8Oracle "t0" 7 c8State).state.history =
        (mkHistoryEntry 7 form.name "t0"
          (⟨some "T", [], "t0"⟩ : ExtractedData).fields.length
          (⟨some "T", [], "t0"⟩ : ExtractedData).formTitle c8State.selectedProvider
          :: c8State.history).take 10 ∧
      (extractFields c8Oracle "t0" 7 c8State).state.history.length ≤ 10 ∧
      (extractFields c8Oracle "t0" 7 c8State).state.history =
        mkHistoryEntry 7 form.name "t0"
          (⟨some "T", [], "t0"⟩ : ExtractedData).fields.length
          (⟨some "T", [], "t0"⟩ : ExtractedData).formTitle c8State.selectedProvider
          :: c8State.history.take 9 :=
  c8_history_bound c8Oracle "t0" 7 c8State ⟨some "T", [], "t0"⟩ rfl

/-! Claim C4 -/

/-- Sample extracted data used for claim C4. -/
def c4Data : ExtractedData :=
  ⟨some "Invoice", [⟨"field_0_1", "Name", "Ann", "text", 0.9, false, some 1, none⟩], "t0"⟩

/-- C4 counterexample: the claim says an update with an id not present in
the collection fails with FieldNotFoundError.  The store action
`updateField` throws nothing at all (the repository defines no
FieldNotFoundError anywhere): on an unknown id it returns normally, with
the field collection unchanged.  Here the update on id "missing-id"
returns normally. -/
theorem c4_counterexample :
    updateField "missing-id" ⟨some "X", some "Y"⟩ c4Data = c4Data := by rfl

/-- C4 (amended): the field-update operation on an id not present in the
collection is a silent no-op: it raises no error (the code defines no
FieldNotFoundError) and leaves the field collection completely
unchanged. -/
theorem c4_update_missing_id_noop (fieldId : String) (u : FieldUpdates)
    (d : ExtractedData) (h : fieldId ∉ d.fields.map Field.id) :
    updateField fieldId u d = d := by
  obtain ⟨t, fs, ts⟩ := d
  simp only [updateField, ExtractedData.mk.injEq, true_and, and_true]
  apply map_pointwise_id
  intro f hf
  have hne : f.id ≠ fieldId := by
    intro hid
    exact h (List.mem_map.mpr ⟨f, hf, hid⟩)
  simp [hne]

/-- Witness for C4: a concrete unknown id on concrete data. -/
theorem c4_update_missing_id_noop_witness :
    ("nope" ∉ c4Data.fields.map Field.id) ∧
    updateField "nope" ⟨some "X", none⟩ c4Data = c4Data :=
  ⟨by decide, c4_update_missing_id_noop "nope" ⟨some "X", none⟩ c4Data (by decide)⟩

/-! Claim C5 -/

/-- Sample extracted data used for claim C5. -/
def c5Data : ExtractedData :=
  ⟨some "Invoice", [⟨"field_0_1", "Name", "Ann", "text", 0.9, false, some 1, none⟩], "t0"⟩

/-- C5 counterexample: the claim says a manual add with an empty label
fails with ValidationError.  The store action `addField` never fails: an
empty label is silently replaced by the default label "New Field" and a
field is appended anyway.  Here `add` with label "" on a form whose
current page is 1 returns normally and appends a "New Field" entry. -/
theorem c5_counterexample :
    addField ⟨some "", none, none, some 2⟩ 1 99 c5Data =
      { c5Data with
          fields := c5Data.fields ++
            [⟨"field_99_2", "New Field", "", "text", 1, true, some 2, none⟩] } := by
  rfl

/-- C5 (amended): a manual add request never fails: an empty (or missing)
label is replaced by the default "New Field" instead of raising
ValidationError; the operation appends exactly one field with confidence
1.0, verified true, page equal to the given page when it is a positive
number, defaulting to the current page of the document, and no boundingBox. -/
theorem c5_add_field (fieldData : NewFieldData) (cp nowMs : Nat) (d : ExtractedData) :
    (addField fieldData cp nowMs d).fields = d.fields ++ [mkAddedField fieldData cp nowMs] ∧
    (mkAddedField fieldData cp nowMs).confidence = 1 ∧
    (mkAddedField fieldData cp nowMs).verified = true ∧
    (mkAddedField fieldData cp nowMs).boundingBox = none ∧
    ((fieldData.label = none ∨ fieldData.label = some "") →
      (mkAddedField fieldData cp nowMs).label = "New Field") ∧
    (∀ s, fieldData.label = some s → s ≠ "" → (mkAddedField fieldData cp nowMs).label = s) ∧
    (∀ p, fieldData.page = some p → p ≠ 0 → (mkAddedField fieldData cp nowMs).page = some p) ∧
    ((fieldData.page = none ∨ fieldData.page = some 0) → cp ≠ 0 →
      (mkAddedField fieldData cp nowMs).page = some cp) := by
  refine ⟨rfl, rfl, rfl, rfl, ?_, ?_, ?_, ?_⟩
  · rintro (h | h) <;> simp [mkAddedField, jsOrStr, h]
  · intro s hs hne
    simp [mkAddedField, jsOrStr, hs, hne]
  · intro p hp hne
    simp [mkAddedField, jsOrNat, hp, hne]
  · rintro (h | h) hcp <;> simp [mkAddedField, jsOrNat, jsOrNat0, h, hcp]

/-- Witness for C5: the scenario from the spec, adding a field with label
"Email" on page 2 of a 3-page document. -/
theorem c5_add_field_witness :
    (addField ⟨some "Email", none, none, some 2⟩ 1 77 c5Data).fields =
      c5Data.fields ++ [mkAddedField ⟨some "Email", none, none, some 2⟩ 1 77] ∧
    (mkAddedField ⟨some "Email", none, none, some 2⟩ 1 77).confidence = 1 ∧
    (mkAddedField ⟨some "Email", none, none, some 2⟩ 1 77).verified = true ∧
    (mkAddedField ⟨some "Email", none, none, some 2⟩ 1 77).boundingBox = none ∧
    (mkAddedField ⟨some "Email", none, none, some 2⟩ 1 77).label = "Email" ∧
    (mkAddedField ⟨some "Email", none, none, some 2⟩ 1 77).page = some 2 := by
  obtain ⟨h1, h2, h3, h4, _, h6, h7, _⟩ :=
    c5_add_field ⟨some "Email", none, none, some 2⟩ 1 77 c5Data
  exact ⟨h1, h2, h3, h4, h6 "Email" rfl (by decide), h7 2 rfl (by decide)⟩

/-! Claim C6 -/

/-- C6 counterexample: the claim says every attribute present in the raw
field, including a confidence of 0, is preserved unchanged.  The mapping
uses JS `||`, for which 0 is falsy: a present confidence of 0 is replaced
by the default 0.8. -/
theorem c6_counterexample :
    (formatOneField 1 0 ⟨some "Total", some "", some "number", some 0, none⟩).confidence
      = 0.8 ∧ (0.8 : ℚ) ≠ 0 := ⟨by rfl, by norm_num⟩

/-- C6 (amended): the response-field mapping applies its defaults by JS
truthiness, not by key presence: a missing or empty label becomes
"Field N", a missing value becomes the empty string (a present value,
including the empty string, is preserved), a missing or empty type
becomes text, and a missing or zero confidence becomes 0.8; a present
nonzero confidence, nonempty label and type, and the bounding box are
preserved unchanged, and the mapped field starts unverified. -/
theorem c6_format_defaults (p i : Nat) (f : RawField) :
    ((f.label = none ∨ f.label = some "") →
      (formatOneField p i f).label = "Field " ++ toString (i + 1)) ∧
    (∀ s, f.label = some s → s ≠ "" → (formatOneField p i f).label = s) ∧
    ((formatOneField p i f).value = f.value.getD "") ∧
    ((f.type = none ∨ f.type = some "") → (formatOneField p i f).type = "text") ∧
    (∀ s, f.type = some s → s ≠ "" → (formatOneField p i f).type = s) ∧
    ((f.confidence = none ∨ f.confidence = some 0) →
      (formatOneField p i f).confidence = 0.8) ∧
    (∀ c, f.confidence = some c → c ≠ 0 → (formatOneField p i f).confidence = c) ∧
    ((formatOneField p i f).boundingBox = f.boundingBox) ∧
    ((formatOneField p i f).verified = false) := by
  refine ⟨?_, ?_, ?_, ?_, ?_, ?_, ?_, rfl, rfl⟩
  · rintro (h | h) <;> simp [formatOneField, jsOrStr, h]
  · intro s hs hne
    simp [formatOneField, jsOrStr, hs, hne]
  · cases h : f.value with
    | none => simp [formatOneField, jsOrStr, h]
    | some s =>
      by_cases hs : s = "" <;> simp [formatOneField, jsOrStr, h, hs]
  · rintro (h | h) <;> simp [formatOneField, jsOrStr, h]
  · intro s hs hne
    simp [formatOneField, jsOrStr, hs, hne]
  · rintro (h | h) <;> simp [formatOneField, jsOrRat, h]
  · intro c hc hne
    simp [formatOneField, jsOrRat, hc, hne]

/-- Witness for C6: a raw field with every key missing receives every
default. -/
theorem c6_format_defaults_witness :
    (formatOneField 2 3 ⟨none, none, none, none, none⟩).label
      = "Field " ++ toString (3 + 1) ∧
    (formatOneField 2 3 ⟨none, none, none, none, none⟩).value = "" ∧
    (formatOneField 2 3 ⟨none, none, none, none, none⟩).type = "text" ∧
    (formatOneField 2 3 ⟨none, none, none, none, none⟩).confidence = 0.8 := by
  obtain ⟨h1, _, h3, h4, _, h6, _, _, _⟩ :=
    c6_format_defaults 2 3 ⟨none, none, none, none, none⟩
  exact ⟨h1 (Or.inl rfl), by simpa using h3, h4 (Or.inl rfl), h6 (Or.inl rfl)⟩

/-! Claim C7 -/

/-- C7 counterexample: the claim says that with no provider configured the
default is the first entry of the fixed priority order.  The priority
order starts with "gemini", but the code falls back to the literal
"gpt-4o" when nothing is configured. -/
theorem c7_counterexample :
    getDefaultProvider (fun _ => false) = "gpt-4o" ∧
    priorityOrder.headD "" = "gemini" ∧
    ("gpt-4o" : String) ≠ "gemini" := by decide

/-- C7 (amended): the default active provider is the first configured
provider in the fixed priority order ["gemini", "gpt-4o", "claude"]; when
none of the known providers is configured it falls back to "gpt-4o" (the
second entry of that order, not the first). -/
theorem c7_default_provider (isConfigured : String → Bool) :
    getDefaultProvider isConfigured =
      (priorityOrder.filter isConfigured).headD "gpt-4o" := by
  cases h1 : isConfigured "gemini" <;> cases h2 : isConfigured "gpt-4o" <;>
    cases h3 : isConfigured "claude" <;>
      simp [getDefaultProvider, priorityOrder, List.find?, List.filter, h1, h2, h3]

/-! Claim C9 -/

/-- C9: toggling verification twice with the same id restores the field
collection exactly, and toggling an id not present in the collection
leaves it unchanged. -/
theorem c9_toggle_involution (fieldId : String) (d : ExtractedData) :
    toggleFieldVerification fieldId (toggleFieldVerification fieldId d) = d ∧
    (fieldId ∉ d.fields.map Field.id → toggleFieldVerification fieldId d = d) := by
  obtain ⟨t, fs, ts⟩ := d
  constructor
  · simp only [toggleFieldVerification, List.map_map, ExtractedData.mk.injEq,
      true_and, and_true]
    apply map_pointwise_id
    intro f _
    obtain ⟨i, l, v, ty, c, vf, pg, bb⟩ := f
    by_cases hf : i = fieldId <;> simp [hf, Function.comp]
  · intro h
    simp only [toggleFieldVerification, ExtractedData.mk.injEq, true_and, and_true]
    apply map_pointwise_id
    intro f hf
    have hne : f.id ≠ fieldId := by
      intro hid
      exact h (List.mem_map.mpr ⟨f, hf, hid⟩)
    simp [hne]

/-- Sample extracted data used for the C9 witness. -/
def c9Data : ExtractedData :=
  ⟨some "Invoice", [⟨"field_0_1", "Name", "Ann", "text", 0.9, true, some 1, none⟩], "t0"⟩

/-- Witness for C9 on concrete data (inner hypothesis discharged
concretely). -/
theorem c9_toggle_involution_witness :
    toggleFieldVerification "field_0_1" (toggleFieldVerification "field_0_1" c9Data)
      = c9Data ∧
    toggleFieldVerification "ghost" c9Data = c9Data :=
  ⟨(c9_toggle_involution "field_0_1" c9Data).1,
   (c9_toggle_involution "ghost" c9Data).2 (by decide)⟩

/-! Claim C10 -/

/-- C10: a file failing upload validation makes `uploadForm` reject with
the validation error message while the whole document session (current
form, original file, extracted data, page count, current page, and the
rest of the state) is left exactly as it was; only the error message is
set and the processing flag cleared. -/
theorem c10_upload_validation_failure (pc : Nat) (purl : String) (psz : Nat)
    (file : Option FileRec) (st : StoreState) (msg : String)
    (h : validateImageFile file = ⟨false, some msg⟩) :
    uploadForm pc purl psz file st =
      (.error msg, { st with error := some msg, processing := false }) ∧
    (uploadForm pc purl psz file st).2.currentForm = st.currentForm ∧
    (uploadForm pc purl psz file st).2.originalFile = st.originalFile ∧
    (uploadForm pc purl psz file st).2.extractedData = st.extractedData ∧
    (uploadForm pc purl psz file st).2.totalPages = st.totalPages ∧
    (uploadForm pc purl psz file st).2.currentPage = st.currentPage ∧
    (uploadForm pc purl psz file st).2.isPDF = st.isPDF ∧
    (uploadForm pc purl psz file st).2.imagePreview = st.imagePreview ∧
    (uploadForm pc purl psz file st).2.history = st.history := by
  have h' : uploadForm pc purl psz file st =
      (.error msg, { st with error := some msg, processing := false }) := by
    simp [uploadForm, h]
  exact ⟨h', by rw [h'], by rw [h'], by rw [h'], by rw [h'], by rw [h'],
    by rw [h'], by rw [h'], by rw [h']⟩

/-- A file with a disallowed MIME type, for the C10 witness. -/
def c10BadFile : FileRec := ⟨"notes.gif", "image/gif", 100⟩

/-- A store state with a live document session, for the C10 witness. -/
def c10State : StoreState :=
  ⟨some ⟨"a.png", "image/png", 5⟩, none,
   some ⟨some "Invoice", [⟨"field_0_1", "Name", "Ann", "text", 0.9, false, some 1, none⟩], "t0"⟩,
   false, none, [], some "blob:prev", "gemini", false, 1, 1, none, none⟩

/-- Witness for C10: uploading a .gif over a live session rejects with the
file-type message and leaves the session intact. -/
theorem c10_upload_validation_failure_witness :
    validateImageFile (some c10BadFile) =
      ⟨false, some "Invalid file type. Please upload JPG, PNG, WebP images or PDF files."⟩ ∧
    uploadForm 1 "blob:new" 0 (some c10BadFile) c10State =
      (.error "Invalid file type. Please upload JPG, PNG, WebP images or PDF files.",
       { c10State with
           error := some "Invalid file type. Please upload JPG, PNG, WebP images or PDF files.",
           processing := false }) :=
  ⟨by decide,
   (c10_upload_validation_failure 1 "blob:new" 0 (some c10BadFile) c10State _ (by decide)).1⟩

end FileReadAI
